import Mathlib

/-!
Verification of the CreatureGRC evidence-collection orchestration and
audit-package assembly engine, as implemented in
`temporal_workflows.py`, `scripts/evidence_collector.py` and
`scripts/generate_audit_package.py`.

The Python code is shallowly embedded below: dates and timestamps are
day numbers (Int, proleptic-Gregorian day count via daysFromCivil),
database tables are lists of rows, the filesystem is an association
list from paths to contents, and the one logical clock reading of a
run is passed explicitly.
-/

namespace CreatureGRC

/-! ## Calendar model

`daysFromCivil y m d` is the number of days from 1970-01-01 to the
Gregorian date y-m-d (the Howard Hinnant civil-days algorithm).  This
gives `datetime + timedelta(days=n)` the meaning `daysFromCivil ... + n`.
-/

def daysFromCivil (y m d : Int) : Int :=
  let y2 : Int := if m ≤ 2 then y - 1 else y
  let era : Int := (if 0 ≤ y2 then y2 else y2 - 399) / 400
  let yoe : Int := y2 - era * 400
  let doy : Int := (153 * (m + (if 2 < m then -3 else 9)) + 2) / 5 + d - 1
  let doe : Int := yoe * 365 + yoe / 4 - yoe / 100 + doy
  era * 146097 + doe - 719468

theorem daysFromCivil_epoch : daysFromCivil 1970 1 1 = 0 := by decide

theorem daysFromCivil_march_2025 :
    daysFromCivil 2025 3 31 - daysFromCivil 2025 1 1 = 89 := by decide

theorem daysFromCivil_april_2025 :
    daysFromCivil 2025 4 1 - daysFromCivil 2025 1 1 = 90 := by decide

theorem daysFromCivil_leap_2024 :
    daysFromCivil 2024 3 1 - daysFromCivil 2024 2 28 = 2 := by decide

/-! ## Control testing (`run_automated_control_test`)

A due control as fetched by `get_controls_due_for_testing`: the fields
the test activity reads.  `testing_frequency` is optional because the
Python dict lookup supplies a default when the key is absent.
-/

structure Control where
  control_id : String
  control_code : String
  testing_frequency : Option String
  deriving Repr, DecidableEq

structure ControlTestResult where
  control_id : String
  control_code : String
  test_passed : Bool
  test_date : Int
  findings : List String
  next_test_date : Int
  deriving Repr, DecidableEq

/-- The `frequency_days` dict literal in `run_automated_control_test`. -/
def frequency_days : String → Option Int
  | "daily" => some 1
  | "weekly" => some 7
  | "monthly" => some 30
  | "quarterly" => some 90
  | "annually" => some 365
  | _ => none

/-- The lookup frequency_days.get(control.get("testing_frequency", "quarterly"), 90). -/
def daysOffset (c : Control) : Int :=
  (frequency_days (c.testing_frequency.getD "quarterly")).getD 90

/-- The environment a test run touches: the only registered test logic
is the CC6.1 branch, which calls
`KeycloakEvidenceCollector.collect_mfa_config` and may raise.  An
`Except.error e` models that call raising an exception with message
`e`; `Except.ok p` models it returning the evidence file path `p`. -/
structure TestEnv where
  collect_mfa_config : Except String String

/-- The try-block body of `run_automated_control_test` up to the
result construction: the only registered per-control test logic is the
CC6.1 branch, whose collector call may raise; every other control code
has no test function and contributes no findings. -/
def testBody (env : TestEnv) (control : Control) (now : Int) :
    Except String (List String) :=
  if control.control_code = "CC6.1" then
    match env.collect_mfa_config with
    | Except.ok _ => Except.ok ["MFA configuration verified on " ++ toString now]
    | Except.error e => Except.error e
  else
    Except.ok []

/-- Shallow embedding of `run_automated_control_test` (temporal_workflows.py,
lines 236-296).  `now` is the day number of the single logical clock
reading of the activity.  The Python body catches every exception of the
try block and converts it into a failed result, so the embedding is a
total function into `ControlTestResult`. -/
def run_automated_control_test (env : TestEnv) (control : Control) (now : Int) :
    ControlTestResult :=
  match testBody env control now with
  | Except.ok findings =>
      { control_id := control.control_id
        control_code := control.control_code
        test_passed := true
        test_date := now
        findings := findings
        next_test_date := now + daysOffset control }
  | Except.error e =>
      { control_id := control.control_id
        control_code := control.control_code
        test_passed := false
        test_date := now
        findings := ["Test failed: " ++ e]
        next_test_date := now + 1 }

/-- The character data of every string a ControlTestResult carries;
used to decide whether any marker text is attached to a result. -/
def resultStrings (r : ControlTestResult) : List String :=
  r.control_id :: r.control_code :: r.findings

/-- `s` contains the marker text "not independently verified". -/
def hasMarker (s : String) : Prop :=
  "not independently verified".data <:+: s.data

instance (s : String) : Decidable (hasMarker s) := by
  unfold hasMarker; infer_instance

/-! ## Status update (`update_control_test_status`)

The relational rows the activity touches.  `control_implementations`
and `audit_findings` are the two tables; only the columns the activity
reads or writes are modelled.
-/

structure ControlImplRow where
  id : Nat
  control_id : String
  last_test_date : Option Int
  next_test_date : Option Int
  deriving Repr, DecidableEq

structure FindingRow where
  finding_title : String
  finding_description : String
  severity : String
  control_implementation_id : Nat
  identified_date : Int
  status : String
  deriving Repr, DecidableEq

structure Db where
  control_implementations : List ControlImplRow
  audit_findings : List FindingRow
  deriving Repr, DecidableEq

/-- The newline used by the Python join of the findings list. -/
def nl : String := String.singleton (Char.ofNat 10)

/-- The `audit_findings` row the INSERT statement of
`update_control_test_status` builds for a failed result attached to
implementation row `implId`. -/
def failureFinding (result : ControlTestResult) (implId : Nat) : FindingRow :=
  { finding_title := "Automated test failed: " ++ result.control_code
    finding_description := String.intercalate nl result.findings
    severity := "high"
    control_implementation_id := implId
    identified_date := result.test_date
    status := "open" }

/-- Shallow embedding of `update_control_test_status`
(temporal_workflows.py, lines 300-353).  SELECT ... LIMIT 1 is the
first matching row; when none exists the activity logs and returns
without writing.  The Finding write is a plain INSERT (appended row),
with no conflict key. -/
def update_control_test_status (result : ControlTestResult) (db : Db) : Db :=
  match db.control_implementations.find? (fun r => r.control_id = result.control_id) with
  | none => db
  | some row =>
      let impls := db.control_implementations.map (fun r =>
        if r.id = row.id then
          { r with last_test_date := some result.test_date
                   next_test_date := some result.next_test_date }
        else r)
      let findings :=
        if result.test_passed then db.audit_findings
        else db.audit_findings ++ [failureFinding result row.id]
      { control_implementations := impls, audit_findings := findings }

/-- Number of findings rows held for a given natural key
(implementation id, identified date). -/
def findingCount (db : Db) (implId : Nat) (day : Int) : Nat :=
  db.audit_findings.countP
    (fun f => f.control_implementation_id = implId ∧ f.identified_date = day)

/-! ## Collection orchestrator (`DailyEvidenceCollectionWorkflow.run`)

`asyncio.gather(..., return_exceptions=True)` hands the workflow one
outcome per source job: either the exception a job terminated with
after exhausting its retries, or the `EvidenceCollectionResult` it
returned (whose `success` flag may itself be false, since each
collection activity catches its own errors).
-/

structure EvidenceCollectionResult where
  source_system : String
  evidence_count : Nat
  success : Bool
  error : Option String
  file_paths : List String
  deriving Repr, DecidableEq

inductive JobOutcome where
  | exn (message : String)
  | res (r : EvidenceCollectionResult)
  deriving Repr, DecidableEq

structure CollectionSummary where
  framework : String
  total_evidence_collected : Nat
  successful_sources : Nat
  failed_sources : List String
  deriving Repr, DecidableEq

/-- One step of the summarising loop of the workflow body. -/
def summarizeStep (acc : CollectionSummary) : JobOutcome → CollectionSummary
  | JobOutcome.exn m =>
      { acc with failed_sources := acc.failed_sources ++ [m] }
  | JobOutcome.res r =>
      if r.success then
        { acc with successful_sources := acc.successful_sources + 1,
                   total_evidence_collected := acc.total_evidence_collected + r.evidence_count }
      else
        { acc with failed_sources :=
            acc.failed_sources ++ [r.source_system ++ ": " ++ (r.error.getD "None")] }

/-- Shallow embedding of the summary computation of
`DailyEvidenceCollectionWorkflow.run` (temporal_workflows.py, lines
399-471): fold the per-source outcomes in order, starting from zero
counters, then return the summary dictionary.  The notification send
has no effect on the returned value. -/
def dailyCollectionRun (framework : String) (results : List JobOutcome) :
    CollectionSummary :=
  results.foldl summarizeStep
    { framework := framework
      total_evidence_collected := 0
      successful_sources := 0
      failed_sources := [] }

/-- Whether an outcome counts as a succeeded job. -/
def isSuccess : JobOutcome → Bool
  | JobOutcome.exn _ => false
  | JobOutcome.res r => r.success

/-- Evidence contributed by an outcome: the count for a succeeded job,
zero otherwise. -/
def evidenceOf : JobOutcome → Nat
  | JobOutcome.exn _ => 0
  | JobOutcome.res r => if r.success then r.evidence_count else 0

/-! ## Evidence store (`EvidenceCollector.save_evidence_file`)

The filesystem is an association list from absolute paths to file
contents.  Content hashing is abstracted into a function `H` passed
explicitly (the code uses SHA-256 over the bytes read back from the
written file); every statement below holds for an arbitrary `H`, and
counterexamples instantiate it concretely.
-/

structure FS where
  files : List (String × String)
  deriving Repr, DecidableEq

/-- Overwriting write of path `p` with content `c`. -/
def writeFile (fs : FS) (p c : String) : FS :=
  { files := (p, c) :: fs.files.filter (fun e => ¬ e.1 = p) }

/-- Content currently stored at `p`. -/
def readFile (fs : FS) (p : String) : Option String :=
  (fs.files.find? (fun e => e.1 = p)).map (fun e => e.2)

/-- Shallow embedding of `EvidenceCollector.save_evidence_file`
(evidence_collector.py, lines 60-84): pick the directory from the
optional subdir, write the content at directory/filename, then hash the
bytes read back from that path.  Returns the new filesystem with the
returned (path, hash) pair. -/
def save_evidence_file (H : String → String) (outputDir : String) (fs : FS)
    (content filename subdir : String) : FS × String × String :=
  let dir := if subdir = "" then outputDir else outputDir ++ "/" ++ subdir
  let filepath := dir ++ "/" ++ filename
  let fs2 := writeFile fs filepath content
  let file_hash := H ((readFile fs2 filepath).getD "")
  (fs2, filepath, file_hash)

/-! ## Collector operations and their side effects

Each collector method is modelled as a function from the data its API
calls returned (passed in as strings, since wire formats are out of
scope) to the list of storage side effects it performs together with
its return value.  `Effect.fileWrite` is a `save_evidence_file` call
(path, content, computed hash); `Effect.dbInsertEvidence` is the
INSERT issued by `store_evidence_record`.
-/

structure EvidenceRecordMeta where
  evidence_name : String
  evidence_type : String
  control_implementation_id : String
  collection_method : String
  collection_timestamp : Int
  evidence_period_start : Option Int
  evidence_period_end : Option Int
  file_path : String
  file_hash : String
  source_system : String
  source_query : Option String
  collected_by_id : String
  deriving Repr, DecidableEq

inductive Effect where
  | fileWrite (path content hash : String)
  | dbInsertEvidence (rec : EvidenceRecordMeta)
  deriving Repr, DecidableEq

def Effect.isDbInsert : Effect → Bool
  | Effect.fileWrite _ _ _ => false
  | Effect.dbInsertEvidence _ => true

/-- Shallow embedding of `EvidenceCollector.store_evidence_record`
(evidence_collector.py, lines 86-113): one INSERT into the evidence
metadata table. -/
def store_evidence_record (rec : EvidenceRecordMeta) : List Effect :=
  [Effect.dbInsertEvidence rec]

/-- The effect of a `save_evidence_file` call: writing
outputDir/subdir/filename and hashing the written bytes. -/
def saveEffect (H : String → String) (outputDir content filename subdir : String) :
    Effect :=
  Effect.fileWrite (outputDir ++ "/" ++ subdir ++ "/" ++ filename) content (H content)

/-- A `save_evidence_file` call as a collector operation performs it:
the write effect together with the returned file path. -/
def saveOp (H : String → String) (outputDir content filename subdir : String) :
    List Effect × Option String :=
  ([saveEffect H outputDir content filename subdir],
   some (outputDir ++ "/" ++ subdir ++ "/" ++ filename))

/-- The seven collector operations named by the inventory of
collection runs, each carrying the date strings baked into its
filename and the response data it serialises.  (`auditLog` also
carries the HTTP status of the GitHub call, which decides whether
anything is written at all.) -/
inductive CollectorOp where
  | authenticationLogs (startStr endStr events : String)
  | securityAlerts (severity startStr alerts : String)
  | agentStatus (dateStr agents : String)
  | mfaConfig (dateStr configData : String)
  | userList (dateStr usersData : String)
  | roleMappings (dateStr roles : String)
  | auditLog (dateStr : String) (status : Nat) (auditEvents : String)
  deriving Repr, DecidableEq

/-- Shallow embedding of the bodies of
`WazuhEvidenceCollector.collect_authentication_logs` /
`collect_security_alerts` / `collect_agent_status`,
`KeycloakEvidenceCollector.collect_mfa_config` / `collect_user_list` /
`collect_role_mappings` and `GitHubAuditCollector.collect_audit_log`
(evidence_collector.py, lines 143-244, 277-356, 401-424): every
operation saves one evidence file under its category subdirectory and
returns the path; none of them calls `store_evidence_record`
(`collect_authentication_logs` builds an `EvidenceRecord` value and
then discards it).  `collect_audit_log` writes nothing and returns
`none` when the HTTP status is not 200. -/
def runCollectorOp (H : String → String) (outputDir : String) :
    CollectorOp → List Effect × Option String
  | CollectorOp.authenticationLogs startStr endStr events =>
      saveOp H outputDir events
        ("wazuh-auth-logs-" ++ startStr ++ "-" ++ endStr ++ ".json")
        "CC6-authentication"
  | CollectorOp.securityAlerts severity startStr alerts =>
      saveOp H outputDir alerts
        ("wazuh-security-alerts-" ++ severity ++ "-" ++ startStr ++ ".json")
        "CC7-monitoring"
  | CollectorOp.agentStatus dateStr agents =>
      saveOp H outputDir agents
        ("wazuh-agent-status-" ++ dateStr ++ ".json") "CC7-monitoring"
  | CollectorOp.mfaConfig dateStr configData =>
      saveOp H outputDir configData
        ("keycloak-mfa-config-" ++ dateStr ++ ".json") "CC6-authentication"
  | CollectorOp.userList dateStr usersData =>
      saveOp H outputDir usersData
        ("keycloak-users-" ++ dateStr ++ ".json") "CC6-access-reviews"
  | CollectorOp.roleMappings dateStr roles =>
      saveOp H outputDir roles
        ("keycloak-roles-" ++ dateStr ++ ".json") "CC6-access-controls"
  | CollectorOp.auditLog dateStr status auditEvents =>
      if status = 200 then
        saveOp H outputDir auditEvents
          ("github-audit-log-" ++ dateStr ++ ".json") "CC8-change-mgmt"
      else ([], none)

/-- A collection run (`EvidenceOrchestrator.collect_all_evidence` or
the four collection activities of the daily workflow): some sequence
of collector operations; its storage effects are their concatenation. -/
def collectionRunEffects (H : String → String) (outputDir : String)
    (ops : List CollectorOp) : List Effect :=
  (ops.map (fun op => (runCollectorOp H outputDir op).1)).flatten

/-! ## SQL ORDER BY model

A generic insertion sort on a Boolean comparison, modelling the ORDER
BY clauses of the package generator queries.
-/

def insertBy {α : Type} (le : α → α → Bool) (x : α) : List α → List α
  | [] => [x]
  | y :: ys => if le x y then x :: y :: ys else y :: insertBy le x ys

def sortBy {α : Type} (le : α → α → Bool) : List α → List α
  | [] => []
  | x :: xs => insertBy le x (sortBy le xs)

theorem mem_insertBy {α : Type} (le : α → α → Bool) (x : α) (l : List α) (a : α) :
    a ∈ insertBy le x l ↔ a = x ∨ a ∈ l := by
  induction l with
  | nil => simp [insertBy]
  | cons y ys ih =>
      by_cases h : le x y = true
      · simp [insertBy, h]
      · simp only [insertBy, if_neg h, List.mem_cons, ih]
        tauto

theorem mem_sortBy {α : Type} (le : α → α → Bool) (l : List α) (a : α) :
    a ∈ sortBy le l ↔ a ∈ l := by
  induction l with
  | nil => simp [sortBy]
  | cons x xs ih => simp [sortBy, mem_insertBy, ih]

theorem pairwise_insertBy {α : Type} (le : α → α → Bool)
    (htot : ∀ a b, le a b = true ∨ le b a = true)
    (htrans : ∀ a b c, le a b = true → le b c = true → le a c = true)
    (x : α) (l : List α) (h : l.Pairwise (fun a b => le a b = true)) :
    (insertBy le x l).Pairwise (fun a b => le a b = true) := by
  induction l with
  | nil => simp [insertBy]
  | cons y ys ih =>
      rcases List.pairwise_cons.mp h with ⟨hy, hys⟩
      by_cases hxy : le x y = true
      · rw [insertBy, if_pos hxy]
        refine List.pairwise_cons.mpr ⟨?_, h⟩
        intro b hb
        rcases List.mem_cons.mp hb with hb | hb
        · exact hb ▸ hxy
        · exact htrans x y b hxy (hy b hb)
      · rw [insertBy, if_neg hxy]
        refine List.pairwise_cons.mpr ⟨?_, ih hys⟩
        intro b hb
        rcases (mem_insertBy le x ys b).mp hb with hb | hb
        · rcases htot x y with hc | hc
          · exact absurd hc hxy
          · exact hb ▸ hc
        · exact hy b hb

theorem pairwise_sortBy {α : Type} (le : α → α → Bool)
    (htot : ∀ a b, le a b = true ∨ le b a = true)
    (htrans : ∀ a b c, le a b = true → le b c = true → le a c = true)
    (l : List α) :
    (sortBy le l).Pairwise (fun a b => le a b = true) := by
  induction l with
  | nil => simp [sortBy]
  | cons x xs ih => exact pairwise_insertBy le htot htrans x (sortBy le xs) ih

/-! ## Audit package generator (`generate_audit_package.py`)

Rows as returned by the three SELECT queries of
`AuditPackageGenerator`.  The control row is the framework join of
`get_framework_controls`; `control_implementation_id` and
`implementation_status` are optional because the join to
`control_implementations` is a LEFT JOIN (a control with no linked
implementation row carries SQL NULL in those columns).
-/

structure ControlRow where
  framework_name : String
  domain_code : String
  domain_name : String
  control_id : String
  control_code : String
  control_implementation_id : Option Nat
  implementation_status : Option String
  automation_level : Option String
  deriving Repr, DecidableEq

structure EvidenceRow where
  id : Nat
  evidence_name : String
  evidence_type : String
  collection_timestamp : Int
  evidence_period_start : Option Int
  evidence_period_end : Option Int
  file_path : String
  file_hash : String
  source_system : String
  review_status : Option String
  control_implementation_id : Nat
  deriving Repr, DecidableEq

/-- The relational state the generator reads: the evidence table and
the audit findings table, plus the framework-control join rows per
framework name. -/
structure PkgDb where
  framework_controls : List ControlRow
  evidence : List EvidenceRow
  audit_findings_rows : List FindingRow
  deriving Repr, DecidableEq

/-- ORDER BY cd.domain_code, c.control_code. -/
def controlLe (a b : ControlRow) : Bool :=
  decide (a.domain_code < b.domain_code ∨
    (a.domain_code = b.domain_code ∧ a.control_code ≤ b.control_code))

/-- Shallow embedding of `AuditPackageGenerator.get_framework_controls`
(generate_audit_package.py, lines 37-70): all join rows for the
framework, ordered by (domain_code, control_code). -/
def get_framework_controls (db : PkgDb) (framework_name : String) :
    List ControlRow :=
  sortBy controlLe
    (db.framework_controls.filter (fun c => c.framework_name = framework_name))

/-- ORDER BY e.collection_timestamp DESC. -/
def evidenceLe (a b : EvidenceRow) : Bool :=
  decide (b.collection_timestamp ≤ a.collection_timestamp)

/-- Shallow embedding of `AuditPackageGenerator.get_control_evidence`
(generate_audit_package.py, lines 72-95): every evidence row whose
control_implementation_id matches, ordered newest first.  The WHERE
clause has no other condition. -/
def get_control_evidence (db : PkgDb) (control_impl_id : Nat) :
    List EvidenceRow :=
  sortBy evidenceLe
    (db.evidence.filter (fun e => e.control_implementation_id = control_impl_id))

/-- ORDER BY af.severity DESC, af.identified_date DESC (severity is a
text column, so DESC is reverse lexicographic). -/
def findingLe (a b : FindingRow) : Bool :=
  decide (b.severity < a.severity ∨
    (a.severity = b.severity ∧ b.identified_date ≤ a.identified_date))

/-- Shallow embedding of `AuditPackageGenerator.get_audit_findings`
(generate_audit_package.py, lines 97-118): open or in_progress
findings of the implementation, by severity then date descending. -/
def get_audit_findings (db : PkgDb) (control_impl_id : Nat) :
    List FindingRow :=
  sortBy findingLe
    (db.audit_findings_rows.filter (fun f =>
      f.control_implementation_id = control_impl_id ∧
        (f.status = "open" ∨ f.status = "in_progress")))

/-- The statistics and domain grouping of
`AuditPackageGenerator.generate_framework_summary`
(generate_audit_package.py, lines 234-252).  `domains` keeps the
Python dict insertion order: one bucket per domain_code in order of
first appearance, each holding its controls in list order. -/
structure FrameworkSummary where
  framework_name : String
  total_controls : Nat
  implemented : Nat
  not_implemented : Nat
  partially : Nat
  automated : Nat
  domains : List (String × List ControlRow)
  generated_at : Int
  deriving Repr, DecidableEq

/-- One iteration of the domain-grouping loop: append the control to
its domain bucket, creating the bucket on first sight of the domain. -/
def groupStep (acc : List (String × List ControlRow)) (c : ControlRow) :
    List (String × List ControlRow) :=
  if acc.any (fun g => g.1 = c.domain_code) then
    acc.map (fun g => if g.1 = c.domain_code then (g.1, g.2 ++ [c]) else g)
  else acc ++ [(c.domain_code, [c])]

def groupByDomain (controls : List ControlRow) :
    List (String × List ControlRow) :=
  controls.foldl groupStep []

def generate_framework_summary (framework_name : String)
    (controls : List ControlRow) (genTime : Int) : FrameworkSummary :=
  { framework_name := framework_name
    total_controls := controls.length
    implemented := controls.countP (fun c => c.implementation_status = some "implemented")
    not_implemented := controls.countP (fun c => c.implementation_status = some "not_implemented")
    partially := controls.countP (fun c => c.implementation_status = some "partially_implemented")
    automated := controls.countP (fun c => c.automation_level = some "fully_automated")
    domains := groupByDomain controls
    generated_at := genTime }

/-- One generated per-control HTML page together with the data joined
into it.  `generated_at` is the datetime.now() second stamp the
template renders into the page footer. -/
structure ControlPage where
  html_path : String
  control : ControlRow
  evidence : List EvidenceRow
  findings : List FindingRow
  generated_at : Int
  deriving Repr, DecidableEq

/-- The produced package: directory path, the per-control pages (only
controls with a linked implementation get one), the executive summary
over all controls, and the archive path.  `generated_at` stamps the
README. -/
structure PackageOutput where
  package_dir : String
  control_pages : List ControlPage
  summary : FrameworkSummary
  generated_at : Int
  zip_path : String
  deriving Repr, DecidableEq

/-- Shallow embedding of
`AuditPackageGenerator.generate_audit_package`
(generate_audit_package.py, lines 362-467).  `dateStr` is
datetime.now().strftime of the day (%Y%m%d) and `genTime` the
second-resolution clock the HTML templates and README render.  The
function takes no period argument: the underlying queries are not
windowed. -/
def generate_audit_package (db : PkgDb) (outputDir client framework : String)
    (dateStr : String) (genTime : Int) : PackageOutput :=
  let package_name := client ++ "-" ++ framework ++ "-evidence-" ++ dateStr
  let package_dir := outputDir ++ "/" ++ package_name
  let controls := get_framework_controls db framework
  let domains := groupByDomain controls
  let pages :=
    (domains.map (fun g =>
      let domain_dir := package_dir ++ "/" ++ g.1 ++ "-" ++
        ((g.2.head?.map (fun c => (c.domain_name.replace " " "-").toLower)).getD "")
      (g.2.filterMap (fun c =>
        match c.control_implementation_id with
        | none => none
        | some implId =>
            some { html_path := domain_dir ++ "/" ++ c.control_code ++ ".html"
                   control := c
                   evidence := get_control_evidence db implId
                   findings := get_audit_findings db implId
                   generated_at := genTime }))) ).flatten
  { package_dir := package_dir
    control_pages := pages
    summary := generate_framework_summary framework controls genTime
    generated_at := genTime
    zip_path := outputDir ++ "/" ++ package_name ++ ".zip" }

/-- The activity return value of the `generate_audit_package` activity
(temporal_workflows.py, lines 357-380): client, framework, the zip
path the generator returned, and counts hardcoded to zero. -/
structure AuditPackageResult where
  client : String
  framework : String
  package_path : String
  control_count : Nat
  evidence_count : Nat
  deriving Repr, DecidableEq

def generate_audit_package_activity (db : PkgDb)
    (outputDir client framework : String) (dateStr : String) (genTime : Int) :
    AuditPackageResult :=
  { client := client
    framework := framework
    package_path := (generate_audit_package db outputDir client framework dateStr genTime).zip_path
    control_count := 0
    evidence_count := 0 }

/-! ## Helper lemmas -/

/-- Every frequency string maps to an offset of at least one day
(unknown or absent frequencies fall back to the 90-day default). -/
theorem one_le_daysOffset (c : Control) : 1 ≤ daysOffset c := by
  unfold daysOffset frequency_days
  split <;> simp

/-- The frequency offset table as the specification states it, for the
five recognised frequency values. -/
def spec_frequency_offset : String → Int
  | "daily" => 1
  | "weekly" => 7
  | "monthly" => 30
  | "quarterly" => 90
  | "annually" => 365
  | _ => 0

/-! ## Claim theorems: control testing -/

/-- C4 (amended): a control whose code has no registered test function
(every code other than CC6.1) yields `test_passed = true` with an
empty finding list; the activity is a total function (the embedding
returns a plain `ControlTestResult`, mirroring the catch-all except
block), so it never raises.  No marker is attached: the result is
exactly the record below, which carries no metadata field and whose
findings list is empty. -/
theorem C4_default_pass (env : TestEnv) (c : Control) (now : Int)
    (h : ¬ c.control_code = "CC6.1") :
    (run_automated_control_test env c now).test_passed = true ∧
    (run_automated_control_test env c now).findings = [] ∧
    run_automated_control_test env c now =
      { control_id := c.control_id
        control_code := c.control_code
        test_passed := true
        test_date := now
        findings := []
        next_test_date := now + daysOffset c } := by
  simp [run_automated_control_test, testBody, h]

/-- Witness for C4_default_pass at a concrete unregistered control. -/
theorem C4_default_pass_witness :
    (run_automated_control_test ⟨Except.ok "p"⟩
      { control_id := "ctl-1", control_code := "A1.1",
        testing_frequency := some "monthly" } 0).test_passed = true :=
  (C4_default_pass ⟨Except.ok "p"⟩
    { control_id := "ctl-1", control_code := "A1.1",
      testing_frequency := some "monthly" } 0 (by decide)).1

/-- C4 counterexample: the claim also asserts a non-empty
"not independently verified" marker in the result metadata, but a
ControlTestResult carries no metadata at all: for a concrete
unregistered control the findings list is empty and no string the
result carries contains the marker text. -/
theorem C4_counterexample :
    (run_automated_control_test ⟨Except.ok "p"⟩
      { control_id := "ctl-1", control_code := "A1.1",
        testing_frequency := some "monthly" } 0).findings = [] ∧
    ∀ s ∈ resultStrings (run_automated_control_test ⟨Except.ok "p"⟩
      { control_id := "ctl-1", control_code := "A1.1",
        testing_frequency := some "monthly" } 0), ¬ hasMarker s := by
  refine ⟨rfl, ?_⟩
  decide

/-- C8 (amended): on a passed test the next test date is
tested_at + offset with the documented mapping {daily 1, weekly 7,
monthly 30, quarterly 90, annually 365}, and for every control
(passed, failed, or of unknown frequency) the next test date is
strictly greater than the test date.  A quarterly control tested on
2025-01-01 is therefore rescheduled to 2025-04-01 (90 days later), not
2025-03-31. -/
theorem C8_reschedule (env : TestEnv) (c : Control) (now : Int) (f : String)
    (hf : c.testing_frequency = some f)
    (hmem : f = "daily" ∨ f = "weekly" ∨ f = "monthly" ∨ f = "quarterly" ∨
      f = "annually") :
    ((run_automated_control_test env c now).test_passed = true →
      (run_automated_control_test env c now).next_test_date =
        now + spec_frequency_offset f) ∧
    (∀ c2 : Control, now < (run_automated_control_test env c2 now).next_test_date) := by
  constructor
  · intro hp
    cases hb : testBody env c now with
    | ok fs =>
        simp only [run_automated_control_test, hb]
        rcases hmem with h | h | h | h | h <;>
          subst h <;> simp [daysOffset, hf, frequency_days, spec_frequency_offset]
    | error e => simp [run_automated_control_test, hb] at hp
  · intro c2
    cases hb : testBody env c2 now with
    | ok fs =>
        simp only [run_automated_control_test, hb]
        have := one_le_daysOffset c2
        omega
    | error e =>
        simp only [run_automated_control_test, hb]
        omega

/-- Witness for C8_reschedule at a concrete quarterly control. -/
theorem C8_reschedule_witness :
    (run_automated_control_test ⟨Except.ok "p"⟩
      { control_id := "c1", control_code := "A1.1",
        testing_frequency := some "quarterly" } 0).next_test_date =
      0 + spec_frequency_offset "quarterly" :=
  (C8_reschedule ⟨Except.ok "p"⟩
    { control_id := "c1", control_code := "A1.1",
      testing_frequency := some "quarterly" } 0 "quarterly" rfl
    (by tauto)).1 (by decide)

/-- C8 counterexample: the scenario date of the claim is wrong.  A
quarterly control tested on 2025-01-01 is rescheduled to
tested_at + 90 days = 2025-04-01, not 2025-03-31. -/
theorem C8_counterexample :
    (run_automated_control_test ⟨Except.ok "p"⟩
      { control_id := "c1", control_code := "A1.1",
        testing_frequency := some "quarterly" }
      (daysFromCivil 2025 1 1)).next_test_date = daysFromCivil 2025 4 1 ∧
    ¬ (run_automated_control_test ⟨Except.ok "p"⟩
      { control_id := "c1", control_code := "A1.1",
        testing_frequency := some "quarterly" }
      (daysFromCivil 2025 1 1)).next_test_date = daysFromCivil 2025 3 31 := by
  decide

/-! ## Claim theorems: status update -/

theorem find?_map_preserve {α : Type} (p : α → Bool) (g : α → α)
    (hg : ∀ a, p (g a) = p a) (l : List α) :
    (l.map g).find? p = (l.find? p).map g := by
  induction l with
  | nil => rfl
  | cons a l ih =>
      cases hpa : p a with
      | true => simp [List.find?_cons, hg, hpa]
      | false => simp [List.find?_cons, hg, hpa, ih]

/-- On a failed result with an existing implementation row, the status
update appends exactly one finding row (the INSERT has no conflict
clause). -/
theorem update_findings_failed (result : ControlTestResult) (db : Db)
    (row : ControlImplRow) (hfail : result.test_passed = false)
    (h : db.control_implementations.find?
      (fun r => r.control_id = result.control_id) = some row) :
    (update_control_test_status result db).audit_findings
      = db.audit_findings ++ [failureFinding result row.id] := by
  unfold update_control_test_status
  rw [h]
  simp [hfail]

/-- The UPDATE of the implementation row preserves the lookup key: the
same row (with refreshed dates) is found again on a second run. -/
theorem update_impls_find? (result : ControlTestResult) (db : Db)
    (row : ControlImplRow)
    (h : db.control_implementations.find?
      (fun r => r.control_id = result.control_id) = some row) :
    (update_control_test_status result db).control_implementations.find?
      (fun r => r.control_id = result.control_id)
      = some { row with last_test_date := some result.test_date
                        next_test_date := some result.next_test_date } := by
  unfold update_control_test_status
  rw [h]
  simp only
  rw [find?_map_preserve]
  · rw [h]
    simp
  · intro a
    by_cases hid : a.id = row.id <;> simp [hid]

/-- C3 (amended): the Finding write of `update_control_test_status` is
a blind INSERT, not an upsert: running the update twice for the same
failed result adds two finding rows for the same
(implementation, identified_date) key instead of leaving one. -/
theorem C3_blind_insert (result : ControlTestResult) (db : Db)
    (row : ControlImplRow) (hfail : result.test_passed = false)
    (hrow : db.control_implementations.find?
      (fun r => r.control_id = result.control_id) = some row) :
    findingCount
        (update_control_test_status result (update_control_test_status result db))
        row.id result.test_date
      = findingCount db row.id result.test_date + 2 := by
  have h1 := update_findings_failed result db row hfail hrow
  have h2 := update_impls_find? result db row hrow
  have h3 := update_findings_failed result (update_control_test_status result db)
    { row with last_test_date := some result.test_date
               next_test_date := some result.next_test_date } hfail h2
  unfold findingCount
  rw [h3, h1]
  simp [List.countP_append, failureFinding, List.countP_cons]

/-- Witness for C3_blind_insert at a concrete failed result and
single-row database. -/
theorem C3_blind_insert_witness :
    findingCount
        (update_control_test_status
          { control_id := "c1", control_code := "A1.1", test_passed := false,
            test_date := 20, findings := ["Test failed: boom"], next_test_date := 21 }
          (update_control_test_status
            { control_id := "c1", control_code := "A1.1", test_passed := false,
              test_date := 20, findings := ["Test failed: boom"], next_test_date := 21 }
            { control_implementations :=
                [{ id := 7, control_id := "c1", last_test_date := none,
                   next_test_date := none }],
              audit_findings := [] }))
        7 20 = 0 + 2 :=
  C3_blind_insert
    { control_id := "c1", control_code := "A1.1", test_passed := false,
      test_date := 20, findings := ["Test failed: boom"], next_test_date := 21 }
    { control_implementations :=
        [{ id := 7, control_id := "c1", last_test_date := none,
           next_test_date := none }],
      audit_findings := [] }
    { id := 7, control_id := "c1", last_test_date := none, next_test_date := none }
    (by decide) (by decide)

/-- C3 counterexample: reprocessing the same failed control test for
the same identified date leaves two Findings for the
(control, identified_date) key, not exactly one. -/
theorem C3_counterexample :
    findingCount
        (update_control_test_status
          { control_id := "c1", control_code := "A1.1", test_passed := false,
            test_date := 20, findings := ["Test failed: boom"], next_test_date := 21 }
          (update_control_test_status
            { control_id := "c1", control_code := "A1.1", test_passed := false,
              test_date := 20, findings := ["Test failed: boom"], next_test_date := 21 }
            { control_implementations :=
                [{ id := 7, control_id := "c1", last_test_date := none,
                   next_test_date := none }],
              audit_findings := [] }))
        7 20 = 2 ∧
    ¬ findingCount
        (update_control_test_status
          { control_id := "c1", control_code := "A1.1", test_passed := false,
            test_date := 20, findings := ["Test failed: boom"], next_test_date := 21 }
          (update_control_test_status
            { control_id := "c1", control_code := "A1.1", test_passed := false,
              test_date := 20, findings := ["Test failed: boom"], next_test_date := 21 }
            { control_implementations :=
                [{ id := 7, control_id := "c1", last_test_date := none,
                   next_test_date := none }],
              audit_findings := [] }))
        7 20 = 1 := by
  decide

/-- C9: a test-function error is converted into a failed
ControlTestResult with the single finding "Test failed: error" and a
next test date of tested_at + 1 day, and the status update then
appends a Finding with severity high and status open for that control
(provided an implementation row exists, which holds for every control
the scheduler hands out). -/
theorem C9_error_to_finding (env : TestEnv) (c : Control) (now : Int)
    (e : String) (db : Db) (row : ControlImplRow)
    (herr : testBody env c now = Except.error e)
    (hrow : db.control_implementations.find?
      (fun r => r.control_id = c.control_id) = some row) :
    (run_automated_control_test env c now).test_passed = false ∧
    (run_automated_control_test env c now).findings = ["Test failed: " ++ e] ∧
    (run_automated_control_test env c now).next_test_date = now + 1 ∧
    (update_control_test_status (run_automated_control_test env c now) db).audit_findings
      = db.audit_findings ++
        [{ finding_title := "Automated test failed: " ++ c.control_code
           finding_description := "Test failed: " ++ e
           severity := "high"
           control_implementation_id := row.id
           identified_date := now
           status := "open" }] := by
  have hr : run_automated_control_test env c now =
      { control_id := c.control_id, control_code := c.control_code,
        test_passed := false, test_date := now,
        findings := ["Test failed: " ++ e], next_test_date := now + 1 } := by
    simp [run_automated_control_test, herr]
  refine ⟨by rw [hr], by rw [hr], by rw [hr], ?_⟩
  rw [hr]
  rw [update_findings_failed _ _ row rfl hrow]
  simp only [failureFinding]
  rfl

/-- Witness for C9_error_to_finding at a concrete raising test run. -/
theorem C9_error_to_finding_witness :
    (run_automated_control_test ⟨Except.error "boom"⟩
      { control_id := "c1", control_code := "CC6.1",
        testing_frequency := some "quarterly" } 5).test_passed = false :=
  (C9_error_to_finding ⟨Except.error "boom"⟩
    { control_id := "c1", control_code := "CC6.1",
      testing_frequency := some "quarterly" } 5 "boom"
    { control_implementations :=
        [{ id := 7, control_id := "c1", last_test_date := none,
           next_test_date := none }],
      audit_findings := [] }
    { id := 7, control_id := "c1", last_test_date := none, next_test_date := none }
    rfl (by decide)).1

/-! ## Claim theorems: collection orchestrator -/

/-- The failure entry an outcome contributes to `failed_sources`, if
any: the stringified exception for a job that terminated with one, the
"source: error" line for a returned result with success false. -/
def failEntry : JobOutcome → Option String
  | JobOutcome.exn m => some m
  | JobOutcome.res r =>
      if r.success then none
      else some (r.source_system ++ ": " ++ (r.error.getD "None"))

theorem foldl_summarize (results : List JobOutcome) (acc : CollectionSummary) :
    results.foldl summarizeStep acc =
      { framework := acc.framework
        total_evidence_collected :=
          acc.total_evidence_collected + (results.map evidenceOf).sum
        successful_sources := acc.successful_sources + results.countP isSuccess
        failed_sources := acc.failed_sources ++ results.filterMap failEntry } := by
  induction results generalizing acc with
  | nil => simp
  | cons o os ih =>
      rw [List.foldl_cons, ih]
      cases o with
      | exn m =>
          simp only [summarizeStep, evidenceOf, isSuccess, failEntry,
            List.map_cons, List.sum_cons, List.countP_cons, List.filterMap_cons]
          simp [CollectionSummary.mk.injEq]
      | res r =>
          by_cases hs : r.success = true
          · simp only [summarizeStep, hs, if_pos, evidenceOf, isSuccess, failEntry,
              List.map_cons, List.sum_cons, List.countP_cons, List.filterMap_cons]
            simp [CollectionSummary.mk.injEq, hs]
            omega
          · simp only [summarizeStep, evidenceOf, isSuccess, failEntry,
              List.map_cons, List.sum_cons, List.countP_cons, List.filterMap_cons]
            simp [CollectionSummary.mk.injEq, hs]

theorem length_filterMap_failEntry (results : List JobOutcome) :
    (results.filterMap failEntry).length = results.countP (fun o => ! isSuccess o) := by
  induction results with
  | nil => rfl
  | cons o os ih =>
      cases o with
      | exn m => simp [failEntry, isSuccess, List.countP_cons, ih]
      | res r =>
          by_cases hs : r.success = true <;>
            simp [failEntry, isSuccess, hs, List.countP_cons, ih]

/-- C5: for every combination of per-source outcomes the summarising
run is a total function (never raises) returning a summary whose
successful_sources is the number of succeeded jobs, whose
total_evidence_collected is the sum of evidence counts over exactly
the succeeded jobs, and whose failed_sources has exactly one entry per
failed job (terminal exception or unsuccessful result), in order; one
job failing does not drop any other job from the aggregation. -/
theorem C5_collection_summary (framework : String) (results : List JobOutcome) :
    (dailyCollectionRun framework results).successful_sources
        = results.countP isSuccess ∧
    (dailyCollectionRun framework results).total_evidence_collected
        = (results.map evidenceOf).sum ∧
    (dailyCollectionRun framework results).failed_sources
        = results.filterMap failEntry ∧
    (dailyCollectionRun framework results).failed_sources.length
        = results.countP (fun o => ! isSuccess o) ∧
    (dailyCollectionRun framework results).framework = framework := by
  unfold dailyCollectionRun
  rw [foldl_summarize]
  refine ⟨by simp, by simp, by simp, ?_, by simp⟩
  simp [length_filterMap_failEntry]

/-! ## Claim theorems: evidence store -/

theorem readFile_writeFile (fs : FS) (p c : String) :
    readFile (writeFile fs p c) p = some c := by
  simp [readFile, writeFile, List.find?_cons]

theorem writeFile_writeFile (fs : FS) (p c : String) :
    writeFile (writeFile fs p c) p c = writeFile fs p c := by
  simp [writeFile, List.filter_cons, List.filter_filter]

/-- C2 (amended): calling `save_evidence_file` twice with identical
content, logical name and category returns the same path and the same
hash, and the second call leaves the store exactly as the first left
it (the file is rewritten in place, so no duplicate blob appears); the
returned hash is the hash of the written bytes.  Deduplication is by
the (category, filename) path only — see the counterexample for the
absence of hash-based reuse. -/
theorem C2_put_idempotent (H : String → String) (outputDir : String) (fs : FS)
    (content filename subdir : String) :
    (save_evidence_file H outputDir
        (save_evidence_file H outputDir fs content filename subdir).1
        content filename subdir).2.1
      = (save_evidence_file H outputDir fs content filename subdir).2.1 ∧
    (save_evidence_file H outputDir
        (save_evidence_file H outputDir fs content filename subdir).1
        content filename subdir).2.2
      = (save_evidence_file H outputDir fs content filename subdir).2.2 ∧
    (save_evidence_file H outputDir
        (save_evidence_file H outputDir fs content filename subdir).1
        content filename subdir).1
      = (save_evidence_file H outputDir fs content filename subdir).1 ∧
    (save_evidence_file H outputDir fs content filename subdir).2.2 = H content := by
  refine ⟨rfl, ?_, ?_, ?_⟩ <;>
    simp [save_evidence_file, readFile_writeFile, writeFile_writeFile]

/-- C2 counterexample: there is no content-addressed dedup.  With a
constant hash function (so the stored object trivially has the same
hash as the incoming bytes — indeed the stored bytes are identical),
saving the same content under a different logical name in the same
category writes a fresh file at a new path instead of reusing the
existing one, leaving two blobs with identical content. -/
theorem C2_counterexample :
    (save_evidence_file (fun _ => "h0") "out"
        { files := [("out/cat/a.json", "DATA")] } "DATA" "b.json" "cat").2.1
      = "out/cat/b.json" ∧
    ¬ (save_evidence_file (fun _ => "h0") "out"
        { files := [("out/cat/a.json", "DATA")] } "DATA" "b.json" "cat").2.1
      = "out/cat/a.json" ∧
    (save_evidence_file (fun _ => "h0") "out"
        { files := [("out/cat/a.json", "DATA")] } "DATA" "b.json" "cat").1.files
      = [("out/cat/b.json", "DATA"), ("out/cat/a.json", "DATA")] := by
  refine ⟨rfl, by decide, rfl⟩

/-! ## Claim theorems: collector side effects -/

/-- C10: no collection run touches the evidence metadata table.  Every
collector operation only writes an evidence file (whose hash is
computed from its content) — whenever an operation returns a path, a
file-write effect at that path is among its effects — and no effect of
any run composed of these operations is a metadata INSERT, because
none of the operations invokes `store_evidence_record`. -/
theorem C10_no_metadata_insert (H : String → String) (outputDir : String)
    (ops : List CollectorOp) :
    (∀ e ∈ collectionRunEffects H outputDir ops, e.isDbInsert = false) ∧
    (∀ op : CollectorOp, ∀ path,
      (runCollectorOp H outputDir op).2 = some path →
      ∃ content,
        Effect.fileWrite path content (H content) ∈ (runCollectorOp H outputDir op).1) := by
  constructor
  · intro e he
    unfold collectionRunEffects at he
    rw [List.mem_flatten] at he
    obtain ⟨l, hl, hel⟩ := he
    rw [List.mem_map] at hl
    obtain ⟨op, hop, rfl⟩ := hl
    cases op with
    | auditLog dateStr status auditEvents =>
        by_cases h200 : status = 200 <;>
          simp_all [runCollectorOp, saveOp, saveEffect, Effect.isDbInsert]
    | _ => simp_all [runCollectorOp, saveOp, saveEffect, Effect.isDbInsert]
  · intro op path hp
    cases op with
    | auditLog dateStr status auditEvents =>
        by_cases h200 : status = 200
        · simp only [runCollectorOp, h200, if_pos, saveOp, Option.some.injEq] at hp
          subst hp
          exact ⟨auditEvents, by simp [runCollectorOp, saveOp, saveEffect, h200]⟩
        · simp [runCollectorOp, h200] at hp
    | authenticationLogs startStr endStr events =>
        simp only [runCollectorOp, saveOp, Option.some.injEq] at hp
        subst hp
        exact ⟨events, by simp [runCollectorOp, saveOp, saveEffect]⟩
    | securityAlerts severity startStr alerts =>
        simp only [runCollectorOp, saveOp, Option.some.injEq] at hp
        subst hp
        exact ⟨alerts, by simp [runCollectorOp, saveOp, saveEffect]⟩
    | agentStatus dateStr agents =>
        simp only [runCollectorOp, saveOp, Option.some.injEq] at hp
        subst hp
        exact ⟨agents, by simp [runCollectorOp, saveOp, saveEffect]⟩
    | mfaConfig dateStr configData =>
        simp only [runCollectorOp, saveOp, Option.some.injEq] at hp
        subst hp
        exact ⟨configData, by simp [runCollectorOp, saveOp, saveEffect]⟩
    | userList dateStr usersData =>
        simp only [runCollectorOp, saveOp, Option.some.injEq] at hp
        subst hp
        exact ⟨usersData, by simp [runCollectorOp, saveOp, saveEffect]⟩
    | roleMappings dateStr roles =>
        simp only [runCollectorOp, saveOp, Option.some.injEq] at hp
        subst hp
        exact ⟨roles, by simp [runCollectorOp, saveOp, saveEffect]⟩

/-- Witness for C10_no_metadata_insert on a concrete one-operation run. -/
theorem C10_no_metadata_insert_witness :
    (saveEffect (fun s => s) "out" "cfg" "keycloak-mfa-config-20250101.json"
      "CC6-authentication").isDbInsert = false :=
  (C10_no_metadata_insert (fun s => s) "out"
    [CollectorOp.mfaConfig "20250101" "cfg"]).1 _
    (by simp [collectionRunEffects, runCollectorOp, saveOp])

/-! ## Claim theorems: package evidence query -/

/-- C6 (amended): the evidence attached to a control consists of ALL
EvidenceRecords whose control_implementation_id matches, ordered by
collection timestamp newest first — the query filters neither on
review_status nor on any period overlap (the generator takes no period
argument at all), so unapproved and out-of-window records are
included. -/
theorem C6_evidence_query (db : PkgDb) (implId : Nat) (r : EvidenceRow) :
    (r ∈ get_control_evidence db implId ↔
      r ∈ db.evidence ∧ r.control_implementation_id = implId) ∧
    (get_control_evidence db implId).Pairwise
      (fun a b => b.collection_timestamp ≤ a.collection_timestamp) := by
  constructor
  · unfold get_control_evidence
    rw [mem_sortBy, List.mem_filter]
    simp
  · have htot : ∀ a b : EvidenceRow, evidenceLe a b = true ∨ evidenceLe b a = true := by
      intro a b
      simp only [evidenceLe, decide_eq_true_eq]
      omega
    have htrans : ∀ a b c : EvidenceRow,
        evidenceLe a b = true → evidenceLe b c = true → evidenceLe a c = true := by
      intro a b c
      simp only [evidenceLe, decide_eq_true_eq]
      omega
    have hp := pairwise_sortBy evidenceLe htot htrans
      (db.evidence.filter (fun e => e.control_implementation_id = implId))
    exact hp.imp (fun h => by simpa [evidenceLe] using h)

/-- A concrete rejected, period-bounded evidence row and the one-row
database holding it, used to instantiate the evidence-query theorems. -/
def rejectedEvidenceRow : EvidenceRow :=
  { id := 1, evidence_name := "ev", evidence_type := "log_export",
    collection_timestamp := 100, evidence_period_start := some 0,
    evidence_period_end := some 10, file_path := "/e/f", file_hash := "h",
    source_system := "wazuh", review_status := some "rejected",
    control_implementation_id := 5 }

def rejectedEvidenceDb : PkgDb :=
  { framework_controls := []
    evidence := [rejectedEvidenceRow]
    audit_findings_rows := [] }

/-- Witness for C6_evidence_query: the membership characterisation at
a one-row database, instantiated on its row. -/
theorem C6_evidence_query_witness :
    rejectedEvidenceRow ∈ get_control_evidence rejectedEvidenceDb 5 :=
  ((C6_evidence_query rejectedEvidenceDb 5 rejectedEvidenceRow).1).mpr (by decide)

/-- C6 counterexample: a record that is rejected (not approved) — and
whose period the caller could never have requested, since the
generator takes no window — is nevertheless attached to its control by
the evidence query. -/
theorem C6_counterexample :
    (get_control_evidence rejectedEvidenceDb 5).map (fun r => r.review_status)
      = [some "rejected"] := by
  decide

/-! ## Claim theorems: framework summary -/

theorem groupStep_preserve (acc : List (String × List ControlRow))
    (x c : ControlRow)
    (h : ∃ g ∈ acc, g.1 = c.domain_code ∧ c ∈ g.2) :
    ∃ g ∈ groupStep acc x, g.1 = c.domain_code ∧ c ∈ g.2 := by
  obtain ⟨g, hg, hcode, hmem⟩ := h
  unfold groupStep
  by_cases hany : acc.any (fun g => g.1 = x.domain_code) = true
  · rw [if_pos hany]
    refine ⟨(fun g => if g.1 = x.domain_code then (g.1, g.2 ++ [x]) else g) g,
      List.mem_map_of_mem _ hg, ?_⟩
    by_cases hgx : g.1 = x.domain_code
    · simp only [if_pos hgx]
      exact ⟨hcode, List.mem_append_left _ hmem⟩
    · simp only [if_neg hgx]
      exact ⟨hcode, hmem⟩
  · rw [if_neg hany]
    exact ⟨g, List.mem_append_left _ hg, hcode, hmem⟩

theorem groupStep_adds (acc : List (String × List ControlRow))
    (x : ControlRow) :
    ∃ g ∈ groupStep acc x, g.1 = x.domain_code ∧ x ∈ g.2 := by
  unfold groupStep
  by_cases hany : acc.any (fun g => g.1 = x.domain_code) = true
  · rw [if_pos hany]
    rw [List.any_eq_true] at hany
    obtain ⟨g0, hg0, hx⟩ := hany
    rw [decide_eq_true_eq] at hx
    refine ⟨(fun g => if g.1 = x.domain_code then (g.1, g.2 ++ [x]) else g) g0,
      List.mem_map_of_mem _ hg0, ?_⟩
    simp only [if_pos hx]
    exact ⟨hx, List.mem_append_right _ (List.mem_singleton.mpr rfl)⟩
  · rw [if_neg hany]
    exact ⟨(x.domain_code, [x]),
      List.mem_append_right _ (List.mem_singleton.mpr rfl),
      rfl, List.mem_singleton.mpr rfl⟩

theorem foldl_groupStep_mem (l : List ControlRow) :
    ∀ acc c, ((∃ g ∈ acc, g.1 = c.domain_code ∧ c ∈ g.2) ∨ c ∈ l) →
      ∃ g ∈ l.foldl groupStep acc, g.1 = c.domain_code ∧ c ∈ g.2 := by
  induction l with
  | nil =>
      intro acc c h
      rcases h with h | h
      · simpa using h
      · simp at h
  | cons x xs ih =>
      intro acc c h
      rw [List.foldl_cons]
      rcases h with h | h
      · exact ih (groupStep acc x) c (Or.inl (groupStep_preserve acc x c h))
      · rcases List.mem_cons.mp h with h | h
        · subst h
          exact ih (groupStep acc c) c (Or.inl (groupStep_adds acc c))
        · exact ih (groupStep acc x) c (Or.inr h)

/-- Every control of the list lands in the bucket bearing its domain
code (the Python dict preserves every control; none is dropped by the
grouping). -/
theorem mem_groupByDomain (controls : List ControlRow) (c : ControlRow)
    (h : c ∈ controls) :
    ∃ g ∈ groupByDomain controls, g.1 = c.domain_code ∧ c ∈ g.2 :=
  foldl_groupStep_mem controls [] c (Or.inr h)

/-- C7 (amended): no framework control is omitted from the package
summary — every control of the framework join, linked implementation
or not, is counted in total_controls and appears in its domain bucket,
and controls without a linked implementation get no detail page (hence
zero evidence).  However the not_implemented tally counts only rows
whose implementation_status column is literally not_implemented; a
control with no implementation row at all (NULL status) is not counted
as not_implemented. -/
theorem C7_summary_controls (db : PkgDb)
    (outputDir client framework dateStr : String) (genTime : Int)
    (c : ControlRow) (hc : c ∈ get_framework_controls db framework) :
    (generate_audit_package db outputDir client framework dateStr genTime).summary.total_controls
        = (get_framework_controls db framework).length ∧
    (∃ g ∈ (generate_audit_package db outputDir client framework dateStr genTime).summary.domains,
        g.1 = c.domain_code ∧ c ∈ g.2) ∧
    (∀ p ∈ (generate_audit_package db outputDir client framework dateStr genTime).control_pages,
        p.control.control_implementation_id.isSome = true) ∧
    (generate_audit_package db outputDir client framework dateStr genTime).summary.not_implemented
        = (get_framework_controls db framework).countP
            (fun x => x.implementation_status = some "not_implemented") := by
  refine ⟨rfl, ?_, ?_, rfl⟩
  · exact mem_groupByDomain _ c hc
  · intro p hp
    simp only [generate_audit_package, List.mem_flatten, List.mem_map] at hp
    obtain ⟨l, ⟨g, hg, rfl⟩, hpl⟩ := hp
    rw [List.mem_filterMap] at hpl
    obtain ⟨c2, hc2, hmatch⟩ := hpl
    cases hcid : c2.control_implementation_id with
    | none => rw [hcid] at hmatch; simp at hmatch
    | some i =>
        rw [hcid] at hmatch
        simp only [Option.some.injEq] at hmatch
        rw [← hmatch]
        simp [hcid]

/-- A concrete framework control with no linked implementation row
(LEFT JOIN NULLs) and the database holding it. -/
def orphanControl : ControlRow :=
  { framework_name := "SOC2", domain_code := "CC1",
    domain_name := "Control Environment", control_id := "ctl-1",
    control_code := "CC1.1", control_implementation_id := none,
    implementation_status := none, automation_level := none }

def orphanDb : PkgDb :=
  { framework_controls := [orphanControl]
    evidence := []
    audit_findings_rows := [] }

/-- Witness for C7_summary_controls at the one-control database. -/
theorem C7_summary_controls_witness :
    (generate_audit_package orphanDb "out" "acme" "SOC2" "20250101" 0).summary.total_controls
      = (get_framework_controls orphanDb "SOC2").length :=
  (C7_summary_controls orphanDb "out" "acme" "SOC2" "20250101" 0 orphanControl
    (by decide)).1

/-- C7 counterexample: a framework control with no linked
implementation row is included in the summary (total_controls counts
it) with zero evidence (it gets no page), but it is NOT counted as
not_implemented: its status is NULL and the not_implemented tally stays
at zero. -/
theorem C7_counterexample :
    (generate_audit_package orphanDb "out" "acme" "SOC2" "20250101" 0).summary.total_controls
        = 1 ∧
    (generate_audit_package orphanDb "out" "acme" "SOC2" "20250101" 0).summary.not_implemented
        = 0 ∧
    (generate_audit_package orphanDb "out" "acme" "SOC2" "20250101" 0).control_pages
        = [] := by
  refine ⟨rfl, rfl, rfl⟩

/-! ## Claim theorems: audit package identity -/

/-- C1 (amended): the generator computes no manifest hash at all.  The
produced package result is entirely independent of the underlying
relational state and of the generation clock: it is always the record
(client, framework, outputDir/client-framework-evidence-date.zip, 0, 0).
Two assemblies over unchanged data on the same date therefore return
equal results, but adding a new approved evidence item also leaves the
result unchanged — there is no hash over (control_code, evidence
content hashes, finding identifiers) anywhere in the output. -/
theorem C1_no_manifest_hash (db db2 : PkgDb)
    (outputDir client framework dateStr : String) (t t2 : Int) :
    generate_audit_package_activity db outputDir client framework dateStr t
      = generate_audit_package_activity db2 outputDir client framework dateStr t2 ∧
    (generate_audit_package_activity db outputDir client framework dateStr t).package_path
      = outputDir ++ "/" ++ (client ++ "-" ++ framework ++ "-evidence-" ++ dateStr)
          ++ ".zip" :=
  ⟨rfl, rfl⟩

/-- A concrete implemented control, its database, and the same
database with one new approved, period-overlapping evidence item. -/
def implControl : ControlRow :=
  { framework_name := "SOC2", domain_code := "CC6",
    domain_name := "Logical Access", control_id := "ctl-6",
    control_code := "CC6.1", control_implementation_id := some 3,
    implementation_status := some "implemented",
    automation_level := some "fully_automated" }

def implDb : PkgDb :=
  { framework_controls := [implControl]
    evidence := []
    audit_findings_rows := [] }

def newApprovedEvidence : EvidenceRow :=
  { id := 9, evidence_name := "new", evidence_type := "log_export",
    collection_timestamp := 150, evidence_period_start := some 120,
    evidence_period_end := some 180, file_path := "/e/new",
    file_hash := "hnew", source_system := "wazuh",
    review_status := some "approved", control_implementation_id := 3 }

def implDbPlus : PkgDb :=
  { framework_controls := [implControl]
    evidence := [newApprovedEvidence]
    audit_findings_rows := [] }

/-- C1 counterexample: adding one new approved evidence item to the
state leaves the produced package result (the only identity a package
carries) unchanged, so no manifest_hash distinguishes the two states;
conversely the full generated content is not reproducible across two
assemblies of the unchanged state, because the rendered pages embed
the generation clock.  No component of the output behaves as the
claimed manifest_hash. -/
theorem C1_counterexample :
    generate_audit_package_activity implDb "out" "acme" "SOC2" "20250101" 100
      = generate_audit_package_activity implDbPlus "out" "acme" "SOC2" "20250101" 100 ∧
    ¬ generate_audit_package implDb "out" "acme" "SOC2" "20250101" 100
      = generate_audit_package implDb "out" "acme" "SOC2" "20250101" 200 := by
  refine ⟨rfl, ?_⟩
  intro h
  have h2 : (100 : Int) = 200 := congrArg PackageOutput.generated_at h
  exact absurd h2 (by decide)

end CreatureGRC
